import Mathlib

/-!
Verification of the TMS-MCP-Server core: problem classification
(`analyzeProblemType`), request building (`transformToOmeletRequest` and its
step functions), request validation (`validateRequest`), response
transformation (`transformOmeletResponse`), endpoint selection, the workflow
session state machine (`completeStep` / `getNextStep`), and the API error
taxonomy (`handleApiError`).

JavaScript numbers are modelled as `Int`; optional/undefined fields as
`Option`. JavaScript truthiness of strings (empty string is falsy) and of
numbers (`0` and `NaN` are falsy, `Number(undefined) = NaN`) is captured by
the `js*` helper functions. Date strings are kept as strings and `new Date`
comparison is modelled by a parser for the exact `YYYY-MM-DDTHH:MM:SSZ`
format that the request builder produces (`parseISOZ`); strings the parser
rejects behave like JavaScript `Invalid Date` (all comparisons false).
-/

/-- JavaScript string truthiness of an optional string: defined and nonempty. -/
def jsTruthyStr : Option String → Bool
  | some s => !(s == "")
  | none => false

/-- JavaScript `x || d` for an optional string `x` (empty string falls back). -/
def jsOrStr : Option String → String → String
  | some s, d => if s == "" then d else s
  | none, d => d

/-- JavaScript `Number(x) > 0` for an optional number (`NaN > 0` is false). -/
def jsNumPos : Option Int → Bool
  | some v => 0 < v
  | none => false

/-- JavaScript `Number(x) || d` for an optional number (`0` and `NaN` fall back). -/
def jsOrNum : Option Int → Int → Int
  | some v, d => if v == 0 then d else v
  | none, d => d

/-- JavaScript `x || d` for a required number `x`. -/
def jsOrNumReq (v : Int) (d : Int) : Int :=
  if v == 0 then d else v

/-- JavaScript truthiness of an optional number: defined and nonzero. -/
def jsTruthyNum : Option Int → Bool
  | some v => !(v == 0)
  | none => false

/-- JavaScript `s.includes(c)` for a one-character search string. -/
def jsIncludesChar (s : String) (c : Char) : Bool :=
  s.data.any (fun a => a == c)

/-- `Math.round(a / b)` on integers: round half toward positive infinity. -/
def jsRoundDiv (a b : Int) : Int :=
  if 0 < b then Int.fdiv (2 * a + b) (2 * b)
  else if b < 0 then Int.fdiv (-(2 * a) - b) (-(2 * b)) else 0

/-- Numeric value of a digit character. -/
def charVal (c : Char) : Nat := c.toNat - 48

/-- Parser for `YYYY-MM-DDTHH:MM:SSZ` timestamps to a chronologically ordered
key, modelling `new Date(s).getTime()` on the strings the builder produces.
Anything else behaves like `Invalid Date` (`none`). -/
def parseISOZ : List Char → Option Nat
  | [y1, y2, y3, y4, a, m1, m2, b, d1, d2, t, h1, h2, c, n1, n2, e, s1, s2, z] =>
    if (a == '-') && (b == '-') && (t == 'T') && (c == ':') && (e == ':') && (z == 'Z')
        && y1.isDigit && y2.isDigit && y3.isDigit && y4.isDigit
        && m1.isDigit && m2.isDigit && d1.isDigit && d2.isDigit
        && h1.isDigit && h2.isDigit && n1.isDigit && n2.isDigit
        && s1.isDigit && s2.isDigit then
      some ((((((charVal y1 * 10 + charVal y2) * 10 + charVal y3) * 10 + charVal y4) * 13
          + (charVal m1 * 10 + charVal m2)) * 32 + (charVal d1 * 10 + charVal d2)) * 86400
          + ((charVal h1 * 10 + charVal h2) * 60 + (charVal n1 * 10 + charVal n2)) * 60
          + (charVal s1 * 10 + charVal s2))
    else none
  | _ => none

/-- `new Date(s)` value of a string (none = Invalid Date). -/
def jsDateVal (s : String) : Option Nat := parseISOZ s.data

/-- `new Date(a) >= new Date(b)`: false when either date is invalid. -/
def jsDateGE (a b : String) : Bool :=
  match jsDateVal a, jsDateVal b with
  | some x, some y => decide (y ≤ x)
  | _, _ => false

/-- Parser for `HH:MM` time-of-day strings, to minutes. -/
def parseHHMM : List Char → Option Nat
  | [h1, h2, c, n1, n2] =>
    if (c == ':') && h1.isDigit && h2.isDigit && n1.isDigit && n2.isDigit then
      some ((charVal h1 * 10 + charVal h2) * 60 + (charVal n1 * 10 + charVal n2))
    else none
  | _ => none

/-- `HH:MM` value of a string in minutes. -/
def hhmmVal (s : String) : Option Nat := parseHHMM s.data

/-- Parser for `YYYY-MM-DD` date strings to an ordered day key. -/
def parseDate10 : List Char → Option Nat
  | [y1, y2, y3, y4, a, m1, m2, b, d1, d2] =>
    if (a == '-') && (b == '-')
        && y1.isDigit && y2.isDigit && y3.isDigit && y4.isDigit
        && m1.isDigit && m2.isDigit && d1.isDigit && d2.isDigit then
      some (((((charVal y1 * 10 + charVal y2) * 10 + charVal y3) * 10 + charVal y4) * 13
          + (charVal m1 * 10 + charVal m2)) * 32 + (charVal d1 * 10 + charVal d2))
    else none
  | _ => none

/-- Day key of a `YYYY-MM-DD` string. -/
def dateVal10 (s : String) : Option Nat := parseDate10 s.data

/-- Driver CSV record (`DriverSchema` plus the extra fields the api client
reads off driver rows: volume capacity, vehicle type, preference ranks and
multi-objective cost fields). -/
structure Driver where
  driver_id : String
  name : Option String := none
  start_location_lat : Int := 0
  start_location_lng : Int := 0
  capacity : Int := 0
  volume_capacity : Option Int := none
  working_hours_start : Option String := none
  working_hours_end : Option String := none
  cost_per_km : Option Int := none
  vehicle_type : Option String := none
  visit_preference_1 : Option Int := none
  visit_preference_2 : Option Int := none
  visit_preference_3 : Option Int := none
  visit_preference_4 : Option Int := none
  fixed_cost : Option Int := none
  unit_distance_cost : Option Int := none
  unit_duration_cost : Option Int := none
  deriving Repr, DecidableEq

/-- Order CSV record (`OrderSchema` plus the `service_time` field the builder
reads). -/
structure Order where
  order_id : String
  delivery_lat : Int := 0
  delivery_lng : Int := 0
  weight : Option Int := none
  volume : Option Int := none
  time_window_start : Option String := none
  time_window_end : Option String := none
  priority : Option Int := none
  service_time : Option Int := none
  deriving Repr, DecidableEq

/-- Depot CSV record (fields used by `buildDepot`). -/
structure Depot where
  depot_id : String
  name : Option String := none
  lat : Int := 0
  lng : Int := 0
  deriving Repr, DecidableEq

/-- `TMSError` codes thrown by the api client. -/
inductive TMSCode where
  | INVALID_DEPOT_COORDINATES
  | INVALID_DRIVER_COORDINATES
  | INSUFFICIENT_DATA
  | INVALID_COORDINATES
  | INVALID_REQUEST
  | NO_VISITS
  | NO_VEHICLES
  | INVALID_TIME_WINDOWS
  | BAD_REQUEST
  | UNAUTHORIZED
  | FORBIDDEN
  | NOT_FOUND
  | METHOD_NOT_ALLOWED
  | NOT_ACCEPTABLE
  | UNPROCESSABLE_ENTITY
  | RATE_LIMIT
  | SERVER_ERROR
  | HTTP_ERROR
  | UNKNOWN_ERROR
  | OPTIMIZATION_FAILED
  deriving Repr, DecidableEq

/-- The VRP variant tags produced by `analyzeProblemType`. -/
inductive VariantTag where
  | TSP
  | CVRP
  | CVRPTW
  | CVRP_Driver_Shifts
  | CVRP_Preferences
  | Multi_Objective_CVRP
  deriving Repr, DecidableEq

/-- `objective_type` values. -/
inductive Objective where
  | minsum
  | minmax
  deriving Repr, DecidableEq

/-- `distance_type` values. -/
inductive DistanceType where
  | manhattan
  | euclidean
  | osrm
  deriving Repr, DecidableEq

/-- The `options` argument of `transformToOmeletRequest`. -/
structure RequestOptions where
  objective : Option Objective := none
  timeLimit : Option Int := none
  enableCapacityConstraint : Option Bool := none
  enableTimeWindowConstraint : Option Bool := none
  allowUnassignedVisits : Option Bool := none
  distanceType : Option DistanceType := none
  deliveryStartTime : Option String := none
  deriving Repr, DecidableEq

/-- Result of `analyzeProblemType`. -/
structure ProblemAnalysis where
  type : VariantTag
  complexity : String
  hasCapacity : Bool
  hasTimeWindows : Bool
  hasWorkingHours : Bool
  hasPreferences : Bool
  hasMultiObjective : Bool
  hasDiverseVehicleTypes : Bool
  isLargeProblem : Bool
  deriving Repr, DecidableEq

/-- `hasCapacity` flag: explicit override if given, else detected from driver
capacities and order weights/volumes. -/
def hasCapacityFlag (drivers : List Driver) (orders : List Order)
    (opts : RequestOptions) : Bool :=
  match opts.enableCapacityConstraint with
  | some b => b
  | none =>
    drivers.any (fun d => decide (0 < d.capacity)) ||
      orders.any (fun o => jsNumPos o.weight || jsNumPos o.volume)

/-- `hasTimeWindows` flag: `options?.enableTimeWindowConstraint || orders.some(...)`. -/
def hasTimeWindowsFlag (orders : List Order) (opts : RequestOptions) : Bool :=
  (opts.enableTimeWindowConstraint == some true) ||
    orders.any (fun o => jsTruthyStr o.time_window_start && jsTruthyStr o.time_window_end)

/-- `hasWorkingHours` flag. -/
def hasWorkingHoursFlag (drivers : List Driver) : Bool :=
  drivers.any (fun d => jsTruthyStr d.working_hours_start || jsTruthyStr d.working_hours_end)

/-- `hasPreferences` flag: any driver with any defined visit-preference rank. -/
def hasPreferencesFlag (drivers : List Driver) : Bool :=
  drivers.any (fun d => d.visit_preference_1.isSome || d.visit_preference_2.isSome ||
    d.visit_preference_3.isSome || d.visit_preference_4.isSome)

/-- `hasMultiObjective` flag. -/
def hasMultiObjectiveFlag (drivers : List Driver) : Bool :=
  drivers.any (fun d => jsNumPos d.fixed_cost || jsNumPos d.unit_distance_cost ||
    jsNumPos d.unit_duration_cost)

/-- `hasDiverseVehicleTypes` flag: `new Set(drivers.map(d => d.vehicle_type || 'car')).size > 1`. -/
def hasDiverseVehicleTypesFlag (drivers : List Driver) : Bool :=
  decide (((drivers.map (fun d => jsOrStr d.vehicle_type "car")).eraseDups).length > 1)

/-- The if/else chain of `analyzeProblemType` assigning the variant tag and
complexity, as a function of `drivers.length === 1`, `drivers.length > 1`
and the six constraint flags. -/
def variantTag (single multi cap tw wh pref mo dv : Bool) : VariantTag × String :=
  if single && !cap && !tw then (VariantTag.TSP, "Low")
  else if cap && !tw && !wh && !pref then (VariantTag.CVRP, "Medium")
  else if cap && tw then (VariantTag.CVRPTW, "High")
  else if cap && wh then (VariantTag.CVRP_Driver_Shifts, "Medium-High")
  else if pref || dv then (VariantTag.CVRP_Preferences, "Medium")
  else if mo then (VariantTag.Multi_Objective_CVRP, "Medium-High")
  else if multi then (VariantTag.CVRP, "Medium")
  else (VariantTag.TSP, "Low")

/-- `analyzeProblemType(drivers, orders, depots, options)`. -/
def analyzeProblemType (drivers : List Driver) (orders : List Order)
    (depots : List Depot) (opts : RequestOptions) : ProblemAnalysis :=
  let hasCapacity := hasCapacityFlag drivers orders opts
  let hasTimeWindows := hasTimeWindowsFlag orders opts
  let hasWorkingHours := hasWorkingHoursFlag drivers
  let hasPreferences := hasPreferencesFlag drivers
  let hasMultiObjective := hasMultiObjectiveFlag drivers
  let hasDiverseVehicleTypes := hasDiverseVehicleTypesFlag drivers
  let tc := variantTag (drivers.length == 1) (decide (1 < drivers.length)) hasCapacity
    hasTimeWindows hasWorkingHours hasPreferences hasMultiObjective hasDiverseVehicleTypes
  { type := tc.1
    complexity := tc.2
    hasCapacity := hasCapacity
    hasTimeWindows := hasTimeWindows
    hasWorkingHours := hasWorkingHours
    hasPreferences := hasPreferences
    hasMultiObjective := hasMultiObjective
    hasDiverseVehicleTypes := hasDiverseVehicleTypes
    isLargeProblem := decide (1000 < orders.length) || decide (50 < drivers.length) }

/-- `shouldEnableCapacityConstraintFromData(drivers, orders)`. -/
def shouldEnableCapacityConstraintFromData (drivers : List Driver)
    (orders : List Order) : Bool :=
  let hasOrderVolume := orders.any (fun o =>
    decide (0 < jsOrNum o.volume 0) || decide (0 < jsOrNum o.weight 0))
  let hasDriverCapacity := drivers.any (fun d =>
    decide (0 < jsOrNum d.volume_capacity 0) || decide (0 < jsOrNumReq d.capacity 0))
  hasOrderVolume || hasDriverCapacity

/-- Depot object of the built request. -/
structure DepotOut where
  name : String
  lng : Int
  lat : Int
  deriving Repr, DecidableEq

/-- `buildDepot(depots, drivers)`. -/
def buildDepot (depots : List Depot) (drivers : List Driver) :
    Except TMSCode DepotOut :=
  match depots with
  | depot0 :: _ =>
    if depot0.lng < -180 || depot0.lng > 180 || depot0.lat < -90 || depot0.lat > 90 then
      .error .INVALID_DEPOT_COORDINATES
    else
      .ok { name := jsOrStr depot0.name "Main Depot", lng := depot0.lng, lat := depot0.lat }
  | [] =>
    match drivers with
    | driver0 :: _ =>
      if driver0.start_location_lng < -180 || driver0.start_location_lng > 180 ||
          driver0.start_location_lat < -90 || driver0.start_location_lat > 90 then
        .error .INVALID_DRIVER_COORDINATES
      else
        .ok { name := "Default Depot", lng := driver0.start_location_lng,
              lat := driver0.start_location_lat }
    | [] => .error .INSUFFICIENT_DATA

/-- Visit object of the built request. -/
structure Visit where
  name : String
  lng : Int
  lat : Int
  weight : Option Int := none
  volume : Option Int := none
  unassigned_penalty : Option Int := none
  time_window : Option (String × String) := none
  service_time : Option Int := none
  deriving Repr, DecidableEq

/-- One step of `buildVisits`: turn an order (at position `index`) into a
visit, validating coordinates, attaching weight/volume only under the
capacity constraint, the unassigned penalty by preference/variant and the
normalized time window (`today` is the current calendar date string). -/
def buildVisit (today : String) (analysis : ProblemAnalysis) (index : Nat)
    (order : Order) : Except TMSCode Visit :=
  if order.delivery_lng < -180 || order.delivery_lng > 180 ||
      order.delivery_lat < -90 || order.delivery_lat > 90 then
    .error .INVALID_COORDINATES
  else
    let name := if order.order_id == "" then "Order_" ++ toString (index + 1)
      else order.order_id
    let weight := if analysis.hasCapacity then some (max 0 (jsOrNum order.weight 0)) else none
    let volume := if analysis.hasCapacity then some (max 0 (jsOrNum order.volume 0)) else none
    let penalty :=
      if analysis.hasPreferences && jsTruthyNum order.priority then
        some (jsRoundDiv 1000 (jsOrNum order.priority 0))
      else if !(analysis.type == VariantTag.TSP) then some 100
      else none
    let tws :=
      if analysis.hasTimeWindows && jsTruthyStr order.time_window_start &&
          jsTruthyStr order.time_window_end then
        let s := jsOrStr order.time_window_start ""
        let e := jsOrStr order.time_window_end ""
        (some (if jsIncludesChar s 'T' then (s, e)
          else (today ++ "T" ++ s ++ ":00Z", today ++ "T" ++ e ++ ":00Z")),
         some (jsOrNum order.service_time 10))
      else (none, none)
    .ok { name := name, lng := order.delivery_lng, lat := order.delivery_lat,
          weight := weight, volume := volume, unassigned_penalty := penalty,
          time_window := tws.1, service_time := tws.2 }

/-- Index-carrying recursion of `orders.map(...)` inside `buildVisits`. -/
def buildVisitsGo (today : String) (analysis : ProblemAnalysis) :
    Nat → List Order → Except TMSCode (List Visit)
  | _, [] => .ok []
  | i, o :: rest => do
    let v ← buildVisit today analysis i o
    let vs ← buildVisitsGo today analysis (i + 1) rest
    pure (v :: vs)

/-- `buildVisits(orders, problemAnalysis)`. -/
def buildVisits (today : String) (orders : List Order)
    (analysis : ProblemAnalysis) : Except TMSCode (List Visit) :=
  buildVisitsGo today analysis 0 orders

/-- Vehicle object of the built request. -/
structure Vehicle where
  name : String
  vehicle_type : String
  weight_capacity : Option Int := none
  volume_capacity : Option Int := none
  fixed_cost : Int := 0
  unit_distance_cost : Int := 0
  unit_duration_cost : Int := 0
  return_to_depot : Bool := true
  work_start_time : Option String := none
  work_end_time : Option String := none
  visit_preference : Option (List Int) := none
  deriving Repr, DecidableEq

/-- Normalization of a working-hours bound inside `buildVehicles`: pass
through strings carrying a timezone or a date, else combine with `today`. -/
def normalizeWorkTime (today : String) (s : String) : String :=
  if jsIncludesChar s '+' || jsIncludesChar s 'Z' then s
  else if jsIncludesChar s 'T' then s
  else today ++ "T" ++ s ++ ":00Z"

/-- One step of `buildVehicles`: turn a driver (at position `index`) into a
vehicle. -/
def buildVehicle (today : String) (analysis : ProblemAnalysis) (index : Nat)
    (driver : Driver) : Vehicle :=
  let name := jsOrStr driver.name ("Vehicle_" ++ toString (index + 1))
  let vtype := (jsOrStr driver.vehicle_type "car").trim
  let wcap := max 1 (jsOrNumReq driver.capacity 1000)
  let weight_capacity := if analysis.hasCapacity then some wcap else none
  let volume_capacity := if analysis.hasCapacity then
      some (if jsNumPos driver.volume_capacity then jsOrNum driver.volume_capacity 0 else wcap)
    else none
  let costs : Int × Int × Int :=
    if analysis.hasMultiObjective then
      (jsOrNum driver.fixed_cost 0,
       jsOrNum driver.unit_distance_cost (jsOrNum driver.cost_per_km 1),
       jsOrNum driver.unit_duration_cost 0)
    else (0, max 0 (jsOrNum driver.cost_per_km 1), 0)
  let work_start := if analysis.hasWorkingHours && jsTruthyStr driver.working_hours_start then
      some (normalizeWorkTime today (jsOrStr driver.working_hours_start ""))
    else none
  let work_end := if analysis.hasWorkingHours && jsTruthyStr driver.working_hours_end then
      some (normalizeWorkTime today (jsOrStr driver.working_hours_end ""))
    else none
  let prefs := if analysis.hasPreferences then
      let ps := [driver.visit_preference_1, driver.visit_preference_2,
        driver.visit_preference_3, driver.visit_preference_4].filterMap id
      if ps.length > 0 then some ps else none
    else none
  { name := name, vehicle_type := vtype,
    weight_capacity := weight_capacity, volume_capacity := volume_capacity,
    fixed_cost := costs.1, unit_distance_cost := costs.2.1,
    unit_duration_cost := costs.2.2, return_to_depot := true,
    work_start_time := work_start, work_end_time := work_end,
    visit_preference := prefs }

/-- `buildVehicles(drivers, problemAnalysis)`: returns the vehicle list and
the (possibly mutated) analysis — when working hours are present the loop
body sets `problemAnalysis.hasTimeWindows = true` on the shared object. -/
def buildVehicles (today : String) (drivers : List Driver)
    (analysis : ProblemAnalysis) : List Vehicle × ProblemAnalysis :=
  (drivers.mapIdx (fun i d => buildVehicle today analysis i d),
   if analysis.hasWorkingHours && !drivers.isEmpty then
     { analysis with hasTimeWindows := true }
   else analysis)

/-- The `option` bag of the built request. -/
structure ApiOption where
  objective_type : Objective
  timelimit : Int
  distance_type : DistanceType
  allow_unassigned_visits : Bool
  use_large_size_optimization_algorithm : Bool
  include_departure_cost_from_depot : Bool
  include_return_cost_to_depot : Bool
  deriving Repr, DecidableEq

/-- `buildApiOptions(problemAnalysis, visitCount, vehicleCount, options)`. -/
def buildApiOptions (analysis : ProblemAnalysis) (visitCount vehicleCount : Nat)
    (opts : RequestOptions) : ApiOption :=
  let caseLimit : Int :=
    match analysis.type with
    | .TSP => 10
    | .CVRP => 10
    | .CVRP_Preferences => 15
    | .CVRP_Driver_Shifts => 20
    | .Multi_Objective_CVRP => 20
    | .CVRPTW => 30
  let timelimit := jsOrNum opts.timeLimit caseLimit
  let objective_type :=
    if analysis.type == VariantTag.TSP && vehicleCount > 1 then Objective.minmax
    else if opts.objective == some Objective.minmax then Objective.minmax
    else Objective.minsum
  { objective_type := objective_type
    timelimit := timelimit
    distance_type := opts.distanceType.getD .euclidean
    allow_unassigned_visits := opts.allowUnassignedVisits.getD analysis.isLargeProblem
    use_large_size_optimization_algorithm := analysis.isLargeProblem
    include_departure_cost_from_depot := true
    include_return_cost_to_depot := true }

/-- The fully built solver request. -/
structure BuiltRequest where
  depot : DepotOut
  visits : List Visit
  vehicles : List Vehicle
  option : ApiOption
  delivery_start_time : Option String := none
  deriving Repr, DecidableEq

/-- `buildFinalRequest(depot, visits, vehicles, apiOption, problemAnalysis, options)`. -/
def buildFinalRequest (depot : DepotOut) (visits : List Visit)
    (vehicles : List Vehicle) (apiOption : ApiOption)
    (analysis : ProblemAnalysis) (opts : RequestOptions) : BuiltRequest :=
  { depot := depot, visits := visits, vehicles := vehicles, option := apiOption,
    delivery_start_time :=
      if analysis.hasTimeWindows && jsTruthyStr opts.deliveryStartTime then
        opts.deliveryStartTime
      else none }

/-- A warning logged (not thrown) by `validateRequest`. -/
inductive Warning where
  | overCapacity (totalDemand totalCapacity : Int)
  deriving Repr, DecidableEq

/-- `visits.reduce((sum, v) => sum + (Number(v.weight) || 0), 0)`. -/
def totalDemand (visits : List Visit) : Int :=
  visits.foldl (fun s v => s + jsOrNum v.weight 0) 0

/-- `vehicles.reduce((sum, v) => sum + (Number(v.weight_capacity) || 0), 0)`. -/
def totalCapacity (vehicles : List Vehicle) : Int :=
  vehicles.foldl (fun s v => s + jsOrNum v.weight_capacity 0) 0

/-- `validateRequest(request, problemAnalysis)`: hard errors on empty visit or
vehicle lists and on an inverted time window (when the time constraint is
active); the over-capacity comparison only logs a warning. -/
def validateRequest (request : BuiltRequest) (analysis : ProblemAnalysis) :
    Except TMSCode (List Warning) :=
  if request.visits.length == 0 then .error .NO_VISITS
  else if request.vehicles.length == 0 then .error .NO_VEHICLES
  else
    let warnings :=
      if analysis.hasCapacity then
        if totalDemand request.visits > totalCapacity request.vehicles then
          [Warning.overCapacity (totalDemand request.visits) (totalCapacity request.vehicles)]
        else []
      else []
    if analysis.hasTimeWindows then
      let bad := request.visits.any (fun v =>
        match v.time_window with
        | some (s, e) => jsDateGE s e
        | none => false)
      if bad then .error .INVALID_TIME_WINDOWS else .ok warnings
    else .ok warnings

/-- Step 2 of `transformToOmeletRequest`: the options with the capacity
constraint resolved (explicit user option wins over data-based detection). -/
def resolvedOptions (drivers : List Driver) (orders : List Order)
    (opts : RequestOptions) : RequestOptions :=
  let finalCapacityConstraint := opts.enableCapacityConstraint.getD
    (shouldEnableCapacityConstraintFromData drivers orders)
  { opts with enableCapacityConstraint := some finalCapacityConstraint }

/-- The analysis computed in step 4 of `transformToOmeletRequest` (before the
`buildVehicles` mutation). -/
def pipelineAnalysis (drivers : List Driver) (orders : List Order)
    (depots : List Depot) (opts : RequestOptions) : ProblemAnalysis :=
  analyzeProblemType drivers orders depots (resolvedOptions drivers orders opts)

/-- `transformToOmeletRequest(drivers, orders, depots, options)`; `today` is
the current calendar date string used for time normalization. Returns the
built request together with the warnings of the final validation. -/
def transformToOmeletRequest (today : String) (drivers : List Driver)
    (orders : List Order) (depots : List Depot) (opts : RequestOptions) :
    Except TMSCode (BuiltRequest × List Warning) := do
  let optionsWithCapacity := resolvedOptions drivers orders opts
  let problemAnalysis := pipelineAnalysis drivers orders depots opts
  let depot ← buildDepot depots drivers
  let visits ← buildVisits today orders problemAnalysis
  let vehiclesAndAnalysis := buildVehicles today drivers problemAnalysis
  let apiOption := buildApiOptions vehiclesAndAnalysis.2 visits.length
    vehiclesAndAnalysis.1.length optionsWithCapacity
  let request := buildFinalRequest depot visits vehiclesAndAnalysis.1 apiOption
    vehiclesAndAnalysis.2 optionsWithCapacity
  let warnings ← validateRequest request vehiclesAndAnalysis.2
  pure (request, warnings)

/-- Warnings of a successful transformation (none on failure). -/
def resultWarnings : Except TMSCode (BuiltRequest × List Warning) → Option (List Warning)
  | .ok (_, ws) => some ws
  | .error _ => none

/-- Per-route cost breakdown of the solver response. -/
structure RouteCostDetails where
  objective_cost : Int
  distance_cost : Int
  duration_cost : Int
  fixed_cost : Int
  deriving Repr, DecidableEq

/-- Solution-level cost breakdown of the solver response. -/
structure SolutionCostDetails where
  total_objective_cost : Int
  total_distance_cost : Int
  total_duration_cost : Int
  max_distance_cost : Int := 0
  max_duration_cost : Int := 0
  total_fixed_cost : Int := 0
  unassigned_penalty_cost : Int := 0
  deriving Repr, DecidableEq

/-- One raw route of the solver response. -/
structure RawRoute where
  vehicle_name : String
  route_index : List Nat := []
  route_name : List String
  route_cost_details : RouteCostDetails
  deriving Repr, DecidableEq

/-- `routing_engine_result` of the solver response. -/
structure RoutingEngineResult where
  routes : List RawRoute
  unassigned_visit_indices : List Nat := []
  unassigned_visit_names : List String
  solution_cost_details : SolutionCostDetails
  deriving Repr, DecidableEq

/-- Response status values. -/
inductive ResponseStatus where
  | feasible
  | optimal
  | infeasible
  | feasible_with_unassigned_visits
  | time_limit_exceeded
  deriving Repr, DecidableEq

/-- Raw solver response (`OmeletResponse`). -/
structure OmeletResponse where
  routing_engine_result : RoutingEngineResult
  status : ResponseStatus
  detail : Option String := none
  deriving Repr, DecidableEq

/-- A stop in a processed route (arrival/departure times are never set). -/
structure VisitStop where
  visit_name : String
  deriving Repr, DecidableEq

/-- One processed route. -/
structure ProcessedRoute where
  vehicle_name : String
  visits : List VisitStop
  total_distance : Int
  total_duration : Int
  total_cost : Int
  deriving Repr, DecidableEq

/-- Processed solver response (`ProcessedOmeletResponse`). -/
structure ProcessedOmeletResponse where
  status : ResponseStatus
  routes : List ProcessedRoute
  unassigned_visits : List String
  total_distance : Int
  total_duration : Int
  total_cost : Int
  detail : Option String
  deriving Repr, DecidableEq

/-- JavaScript `array.slice(1, -1)`. -/
def jsSliceInner (l : List α) : List α := (l.drop 1).dropLast

/-- `transformOmeletResponse(response)`: strips the depot from both ends of
each route's name list, passes unassigned visit names through and pulls the
aggregate costs from the solution-level cost details. -/
def transformOmeletResponse (response : OmeletResponse) : ProcessedOmeletResponse :=
  let result := response.routing_engine_result
  { status := response.status
    routes := result.routes.map (fun route =>
      { vehicle_name := route.vehicle_name
        visits := (jsSliceInner route.route_name).map (fun visitName =>
          { visit_name := visitName })
        total_distance := route.route_cost_details.distance_cost
        total_duration := route.route_cost_details.duration_cost
        total_cost := route.route_cost_details.objective_cost })
    unassigned_visits := result.unassigned_visit_names
    total_distance := result.solution_cost_details.total_distance_cost
    total_duration := result.solution_cost_details.total_duration_cost
    total_cost := result.solution_cost_details.total_objective_cost
    detail := response.detail }

/-- The seven workflow steps, in the key order of `WORKFLOW_GUIDES`. -/
inductive WorkflowStep where
  | start_project
  | prepare_data
  | configure_problem
  | solve_optimization
  | analyze_results
  | refine_solution
  | export_results
  deriving Repr, DecidableEq

/-- `Object.keys(WORKFLOW_GUIDES)`. -/
def workflowSteps : List WorkflowStep :=
  [.start_project, .prepare_data, .configure_problem, .solve_optimization,
   .analyze_results, .refine_solution, .export_results]

/-- `Object.keys(WORKFLOW_GUIDES).indexOf(step)`. -/
def stepIndex : WorkflowStep → Nat
  | .start_project => 0
  | .prepare_data => 1
  | .configure_problem => 2
  | .solve_optimization => 3
  | .analyze_results => 4
  | .refine_solution => 5
  | .export_results => 6

/-- The session state the workflow state machine manipulates. -/
structure ProjectSession where
  current_step : Nat
  steps_completed : List WorkflowStep
  deriving Repr, DecidableEq

/-- `SessionManager.completeStep`: record the step as completed and advance
`current_step` when the completed step's index is at or past it. -/
def completeStep (session : ProjectSession) (step : WorkflowStep) : ProjectSession :=
  let session1 :=
    if session.steps_completed.contains step then session
    else { session with steps_completed := session.steps_completed ++ [step] }
  if stepIndex step ≥ session1.current_step then
    { session1 with current_step := stepIndex step + 1 }
  else session1

/-- `SessionManager.getNextStep`: none once all steps are done, else the step
at index `current_step`. -/
def getNextStep (session : ProjectSession) : Option WorkflowStep :=
  if h : session.current_step ≥ workflowSteps.length then none
  else some (workflowSteps.get ⟨session.current_step, by omega⟩)

/-- A thrown `TMSError`, reduced to its machine-readable code and remediation
suggestions. -/
structure TMSErrorOut where
  code : TMSCode
  suggestions : List String
  deriving Repr, DecidableEq

/-- The error input of `handleApiError`: an already-structured `TMSError`, an
axios transport error carrying the HTTP status of its response when one was
received (`none` models a network-level failure with no response), or any
other thrown value. -/
inductive ApiError where
  | tms (e : TMSErrorOut)
  | axios (status : Option Nat)
  | unknown
  deriving Repr, DecidableEq

/-- `handleApiError(error)`: rethrow structured errors, map recognized HTTP
statuses to their domain error codes with remediation suggestions, map any
other axios failure (unrecognized status or no response at all) to
`HTTP_ERROR`, and anything else to `UNKNOWN_ERROR`. -/
def handleApiError : ApiError → TMSErrorOut
  | .tms e => e
  | .axios status =>
    match status with
    | some 400 =>
      { code := .BAD_REQUEST,
        suggestions := ["요청 데이터 형식을 확인해주세요",
          "필수 필드가 모두 있는지 확인해주세요",
          "API 스펙에 맞는 데이터 타입인지 확인해주세요"] }
    | some 401 =>
      { code := .UNAUTHORIZED,
        suggestions := ["API 키를 확인해주세요",
          ".env 파일의 OMELET_API_KEY를 확인해주세요",
          "X-API-KEY 헤더가 올바른지 확인해주세요"] }
    | some 403 =>
      { code := .FORBIDDEN,
        suggestions := ["API 키 권한을 확인해주세요", "요청 제한이 있는지 확인해주세요"] }
    | some 404 =>
      { code := .NOT_FOUND,
        suggestions := ["API 엔드포인트를 확인해주세요", "작업 ID가 올바른지 확인해주세요"] }
    | some 405 =>
      { code := .METHOD_NOT_ALLOWED,
        suggestions := ["HTTP 메소드를 확인해주세요"] }
    | some 406 =>
      { code := .NOT_ACCEPTABLE,
        suggestions := ["Accept 헤더를 올바른 버전 미디어 타입으로 설정해주세요"] }
    | some 422 =>
      { code := .UNPROCESSABLE_ENTITY,
        suggestions := ["요청 데이터의 유효성을 확인해주세요",
          "비즈니스 로직 제약조건을 확인해주세요"] }
    | some 429 =>
      { code := .RATE_LIMIT,
        suggestions := ["잠시 후 다시 시도해주세요",
          "대규모 문제의 경우 vrp-long 엔드포인트를 사용하세요"] }
    | some 500 =>
      { code := .SERVER_ERROR,
        suggestions := ["잠시 후 다시 시도해주세요", "문제가 계속되면 관리자에게 문의하세요"] }
    | _ =>
      { code := .HTTP_ERROR,
        suggestions := ["네트워크 연결을 확인해주세요", "API 서버 상태를 확인해주세요"] }
  | .unknown => { code := .UNKNOWN_ERROR, suggestions := [] }

/-- The two solver endpoints. -/
inductive Endpoint where
  | vrp
  | vrpLong
  deriving Repr, DecidableEq

/-- `selectEndpoint(orderCount, vehicleCount)` from the api configuration:
large problems (at least 100 orders or 20 vehicles) go to the asynchronous
endpoint. -/
def selectEndpoint (orderCount vehicleCount : Nat) : Endpoint :=
  if orderCount ≥ 100 || vehicleCount ≥ 20 then .vrpLong else .vrp

/-- The large-problem test of `handleSolveOptimization` that actually picks
between the synchronous call and the asynchronous submission. -/
def solveDispatchIsLarge (visitCount vehicleCount : Nat) : Bool :=
  decide (visitCount > 50) || decide (vehicleCount > 5)

/-- The endpoint actually used by the solve tool for a built request. -/
def solveDispatchEndpoint (visitCount vehicleCount : Nat) : Endpoint :=
  if solveDispatchIsLarge visitCount vehicleCount then .vrpLong else .vrp

/-- The ordered priority rule list for the variant tag as the specification
states it (first matching rule wins); `none` when no rule matches. Stated
over `drivers.length === 1`, `drivers.length > 1` and the six constraint
flags. -/
def claimRuleTag (single multi cap tw wh pref mo dv : Bool) : Option VariantTag :=
  if single && !cap && !tw then some .TSP
  else if cap && !tw && !wh && !pref then some .CVRP
  else if cap && tw then some .CVRPTW
  else if cap && wh && !tw then some .CVRP_Driver_Shifts
  else if pref || dv then some .CVRP_Preferences
  else if mo then some .Multi_Objective_CVRP
  else if multi then some .CVRP
  else none

/-- The per-order unassigned penalty as the specification states it: with
preferences and an explicit (truthy) priority, `round(1000/priority)`;
otherwise 100 for any non-TSP variant; nothing for TSP. -/
def claimPenalty (analysis : ProblemAnalysis) (o : Order) : Option Int :=
  match o.priority with
  | some p =>
    if analysis.hasPreferences && !(p == 0) then some (jsRoundDiv 1000 p)
    else if !(analysis.type == VariantTag.TSP) then some 100
    else none
  | none => if !(analysis.type == VariantTag.TSP) then some 100 else none

/-- Coordinate validity check of `buildVisits` on an order. -/
def orderCoordsOk (o : Order) : Bool :=
  !(o.delivery_lng < -180 || o.delivery_lng > 180 ||
    o.delivery_lat < -90 || o.delivery_lat > 90)

/-- Coordinate validity check of `buildDepot` on a depot record. -/
def depotCoordsOk (d : Depot) : Bool :=
  !(d.lng < -180 || d.lng > 180 || d.lat < -90 || d.lat > 90)

/-- Well-ordered time-window data in the `HH:MM` form: either the order does
not carry both bounds (nothing is attached), or both bounds are `HH:MM`
strings whose minute values are strictly increasing. -/
def timeWindowOkHHMM (o : Order) : Bool :=
  match o.time_window_start, o.time_window_end with
  | some s, some e =>
    if s == "" || e == "" then true
    else
      match hhmmVal s, hhmmVal e with
      | some m1, some m2 => decide (m1 < m2)
      | _, _ => false
  | _, _ => true

/-- A driver record with no optional data and zero capacity. -/
def plainDriver : Driver := { driver_id := "D1" }

/-- An order record with valid coordinates and no optional data. -/
def plainOrder (i : Nat) : Order :=
  { order_id := "O" ++ toString i, delivery_lat := 37, delivery_lng := 127 }

/-- Five orders with no capacity or time data. -/
def plainOrders5 : List Order :=
  [plainOrder 1, plainOrder 2, plainOrder 3, plainOrder 4, plainOrder 5]

/-- A driver with weight capacity 1000 and nothing else. -/
def capDriver : Driver := { driver_id := "DC", capacity := 1000 }

/-- An order with valid coordinates and a given weight. -/
def heavyOrder (w : Int) (i : Nat) : Order :=
  { order_id := "H" ++ toString i, delivery_lat := 37, delivery_lng := 127,
    weight := some w }

/-- Twenty orders of a given weight each. -/
def orders20 (w : Int) : List Order := (List.range 20).map (heavyOrder w)

/-- A depot record with valid coordinates. -/
def sampleDepot : Depot := { depot_id := "DP", lat := 37, lng := 127 }

/-- An order with a `09:00`–`18:00` time window. -/
def twOrder : Order :=
  { order_id := "TW1", delivery_lat := 37, delivery_lng := 127,
    time_window_start := some "09:00", time_window_end := some "18:00" }

/-- A synthetic solver response with a single route `[depot, "A", "B", depot]`. -/
def sampleDepotResponse : OmeletResponse :=
  { routing_engine_result :=
      { routes := [{ vehicle_name := "V1",
                     route_name := ["Main Depot", "A", "B", "Main Depot"],
                     route_cost_details :=
                       { objective_cost := 7, distance_cost := 5,
                         duration_cost := 2, fixed_cost := 0 } }],
        unassigned_visit_names := [],
        solution_cost_details :=
          { total_objective_cost := 7, total_distance_cost := 5,
            total_duration_cost := 2 } },
    status := .optimal }

/-- The visit list `buildVisits` produces for the single order
`heavyOrder 100 1` under a CVRP classification. -/
def c3WitnessVisits : List Visit :=
  [{ name := "H1", lng := 127, lat := 37, weight := some 100, volume := some 0,
     unassigned_penalty := some 100 }]

/-- Whether a transformation attempt succeeded. -/
def exceptIsOk : Except TMSCode (BuiltRequest × List Warning) → Bool
  | .ok _ => true
  | .error _ => false

/-- Whether a validation attempt succeeded. -/
def exceptIsOkW : Except TMSCode (List Warning) → Bool
  | .ok _ => true
  | .error _ => false

/-- A driver with working hours and nothing else. -/
def whDriver : Driver :=
  { driver_id := "DW", working_hours_start := some "08:00",
    working_hours_end := some "17:00" }

/-- A concrete option bag. -/
def c6Option : ApiOption :=
  { objective_type := .minsum, timelimit := 10, distance_type := .euclidean,
    allow_unassigned_visits := false, use_large_size_optimization_algorithm := false,
    include_departure_cost_from_depot := true, include_return_cost_to_depot := true }

/-- A small concrete built request: one visit of demand 5, one vehicle of
capacity 3. -/
def c6Request : BuiltRequest :=
  { depot := { name := "D", lng := 0, lat := 0 },
    visits := [{ name := "V", lng := 0, lat := 0, weight := some 5 }],
    vehicles := [{ name := "X", vehicle_type := "car", weight_capacity := some 3 }],
    option := c6Option }

/-- A concrete CVRP classification with the capacity constraint active. -/
def c6Analysis : ProblemAnalysis :=
  { type := .CVRP, complexity := "Medium", hasCapacity := true,
    hasTimeWindows := false, hasWorkingHours := false, hasPreferences := false,
    hasMultiObjective := false, hasDiverseVehicleTypes := false,
    isLargeProblem := false }

/-- C4: the Result Transformer maps each raw route's ordered name list to a
visit list with the first and last (depot) entries removed, passes the
unassigned visit name list through unchanged, and takes the aggregate
distance/duration/cost from the solution-level cost details; on a response
with the single route `[depot, "A", "B", depot]` it yields exactly one route
whose visit list is `["A", "B"]`. -/
theorem C4_response_transformation :
    (∀ response : OmeletResponse,
      (transformOmeletResponse response).unassigned_visits =
        response.routing_engine_result.unassigned_visit_names ∧
      (transformOmeletResponse response).total_distance =
        response.routing_engine_result.solution_cost_details.total_distance_cost ∧
      (transformOmeletResponse response).total_duration =
        response.routing_engine_result.solution_cost_details.total_duration_cost ∧
      (transformOmeletResponse response).total_cost =
        response.routing_engine_result.solution_cost_details.total_objective_cost ∧
      (transformOmeletResponse response).routes.map
          (fun r => r.visits.map (fun v => v.visit_name)) =
        response.routing_engine_result.routes.map (fun r => jsSliceInner r.route_name)) ∧
    (transformOmeletResponse sampleDepotResponse).routes.length = 1 ∧
    (transformOmeletResponse sampleDepotResponse).routes.map
        (fun r => r.visits.map (fun v => v.visit_name)) = [["A", "B"]] := by
  refine ⟨?_, by decide, by decide⟩
  intro response
  refine ⟨rfl, rfl, rfl, rfl, ?_⟩
  simp only [transformOmeletResponse, List.map_map]
  refine List.map_congr_left ?_
  intro a _
  simp only [Function.comp_apply, List.map_map]
  exact List.map_id' _

/-- C7 as stated is false on the code: the solve tool's actual dispatch
treats a request with 99 visits (more than 50) as a large problem and sends
it to the asynchronous submission endpoint, not the synchronous one. -/
theorem C7_endpoint_claim_counterexample :
    ¬ (solveDispatchEndpoint 99 19 = Endpoint.vrp) := by decide

/-- C7 (amended): the `selectEndpoint` helper maps 99 visits / 19 vehicles
to the synchronous endpoint and at least 100 visits or at least 20 vehicles
to the asynchronous endpoint, but the solve tool's dispatch uses the
large-problem test (visits > 50 or vehicles > 5), so it sends a
99-visit / 19-vehicle request to the asynchronous submission endpoint;
at least 100 visits or at least 20 vehicles goes asynchronous under both
rules. -/
theorem C7_endpoint_thresholds :
    selectEndpoint 99 19 = Endpoint.vrp ∧
    solveDispatchEndpoint 99 19 = Endpoint.vrpLong ∧
    (∀ n v : Nat, 100 ≤ n ∨ 20 ≤ v →
      selectEndpoint n v = Endpoint.vrpLong ∧
        solveDispatchEndpoint n v = Endpoint.vrpLong) := by
  refine ⟨by decide, by decide, ?_⟩
  intro n v h
  have h1 : (decide (n ≥ 100) || decide (v ≥ 20)) = true := by
    rcases h with h | h <;> simp [h]
  have h2 : solveDispatchIsLarge n v = true := by
    unfold solveDispatchIsLarge
    rcases h with h | h <;> simp <;> omega
  constructor
  · unfold selectEndpoint
    rw [if_pos (by simpa using h1)]
  · unfold solveDispatchEndpoint
    rw [if_pos (by simpa using h2)]

theorem C7_endpoint_thresholds_witness :
    selectEndpoint 100 0 = Endpoint.vrpLong ∧
      solveDispatchEndpoint 100 0 = Endpoint.vrpLong :=
  C7_endpoint_thresholds.2.2 100 0 (Or.inl (by decide))

/-- C8: completing step `k` sets `current_step` to
`max(current_step, k + 1)`; completing step index 3 on a session at step 1
advances `current_step` to 4 and then completing step index 0 leaves it at
4; the advertised next step is always the step at index `current_step`,
none once `current_step` reaches 7. -/
theorem C8_step_completion_monotone :
    (∀ (session : ProjectSession) (step : WorkflowStep),
      (completeStep session step).current_step =
        max session.current_step (stepIndex step + 1)) ∧
    ((completeStep { current_step := 1, steps_completed := [.start_project] }
        .solve_optimization).current_step = 4 ∧
      (completeStep (completeStep { current_step := 1, steps_completed := [.start_project] }
        .solve_optimization) .start_project).current_step = 4) ∧
    (∀ session : ProjectSession,
      getNextStep session = workflowSteps[session.current_step]? ∧
      (7 ≤ session.current_step → getNextStep session = none)) := by
  refine ⟨?_, by decide, ?_⟩
  · intro session step
    simp only [completeStep]
    generalize hG : (if session.steps_completed.contains step then session
      else { session with steps_completed := session.steps_completed ++ [step] }) = s1
    have h1 : s1.current_step = session.current_step := by
      rw [← hG]
      by_cases h : session.steps_completed.contains step
      · rw [if_pos h]
      · rw [if_neg h]
    by_cases h2 : stepIndex step ≥ s1.current_step
    · rw [if_pos h2]
      rw [h1] at h2
      show stepIndex step + 1 = max session.current_step (stepIndex step + 1)
      omega
    · rw [if_neg h2]
      rw [h1] at h2
      rw [h1]
      omega
  · intro session
    have hlen : workflowSteps.length = 7 := rfl
    constructor
    · unfold getNextStep
      split
      · next h => exact (List.getElem?_eq_none (by omega)).symm
      · next h =>
        rw [List.getElem?_eq_getElem (by omega)]
        simp [List.get_eq_getElem]
    · intro h7
      unfold getNextStep
      rw [dif_pos (by omega)]

theorem C8_step_completion_monotone_witness :
    getNextStep { current_step := 9, steps_completed := [] } = none :=
  (C8_step_completion_monotone.2.2 { current_step := 9, steps_completed := [] }).2
    (by decide)

/-- C9: `handleApiError` maps each recognized HTTP status (400, 401, 403,
404, 405, 406, 422, 429, 500) to its own domain error code with nonempty
remediation suggestions, and a network-level failure with no HTTP response
to the generic `HTTP_ERROR` kind, which is distinct from all nine
status-specific kinds (all ten are pairwise distinct). -/
theorem C9_http_error_taxonomy :
    ([400, 401, 403, 404, 405, 406, 422, 429, 500].map
        (fun s => (handleApiError (.axios (some s))).code)) =
      [.BAD_REQUEST, .UNAUTHORIZED, .FORBIDDEN, .NOT_FOUND, .METHOD_NOT_ALLOWED,
       .NOT_ACCEPTABLE, .UNPROCESSABLE_ENTITY, .RATE_LIMIT, .SERVER_ERROR] ∧
    ([400, 401, 403, 404, 405, 406, 422, 429, 500].all
        (fun s => !(handleApiError (.axios (some s))).suggestions.isEmpty)) = true ∧
    (handleApiError (.axios none)).code = .HTTP_ERROR ∧
    ((handleApiError (.axios none)).code ::
      [400, 401, 403, 404, 405, 406, 422, 429, 500].map
        (fun s => (handleApiError (.axios (some s))).code)).Nodup ∧
    (handleApiError (.axios none)).suggestions ≠ [] := by decide

theorem variantTag_follows_claimRules :
    ∀ single multi cap tw wh pref mo dv : Bool,
      claimRuleTag single multi cap tw wh pref mo dv = none ∨
        claimRuleTag single multi cap tw wh pref mo dv =
          some (variantTag single multi cap tw wh pref mo dv).1 := by decide

/-- C1: the classifier assigns the variant tag by the first matching rule of
the spec's ordered priority list (single driver without capacity/time ⇒ TSP;
capacity only ⇒ CVRP; capacity + time windows ⇒ CVRPTW; capacity + working
hours ⇒ CVRP_Driver_Shifts; preferences or diverse vehicle types ⇒
CVRP_Preferences; multi-objective costs ⇒ Multi_Objective_CVRP; multiple
drivers otherwise ⇒ CVRP); and a single driver with five orders carrying no
capacity or time data yields TSP with both flags false. -/
theorem C1_classifier_priority :
    (∀ (drivers : List Driver) (orders : List Order) (depots : List Depot)
        (opts : RequestOptions) (t : VariantTag),
      claimRuleTag (drivers.length == 1) (decide (1 < drivers.length))
          (hasCapacityFlag drivers orders opts) (hasTimeWindowsFlag orders opts)
          (hasWorkingHoursFlag drivers) (hasPreferencesFlag drivers)
          (hasMultiObjectiveFlag drivers) (hasDiverseVehicleTypesFlag drivers) = some t →
        (analyzeProblemType drivers orders depots opts).type = t) ∧
    (∀ (d : Driver) (orders : List Order) (depots : List Depot),
      d.capacity = 0 → orders.length = 5 →
      (∀ o ∈ orders, o.weight = none ∧ o.volume = none ∧
        o.time_window_start = none ∧ o.time_window_end = none) →
      (analyzeProblemType [d] orders depots {}).type = VariantTag.TSP ∧
        (analyzeProblemType [d] orders depots {}).hasCapacity = false ∧
        (analyzeProblemType [d] orders depots {}).hasTimeWindows = false) := by
  constructor
  · intro drivers orders depots opts t h
    have hm := variantTag_follows_claimRules (drivers.length == 1)
      (decide (1 < drivers.length)) (hasCapacityFlag drivers orders opts)
      (hasTimeWindowsFlag orders opts) (hasWorkingHoursFlag drivers)
      (hasPreferencesFlag drivers) (hasMultiObjectiveFlag drivers)
      (hasDiverseVehicleTypesFlag drivers)
    rcases hm with hm | hm
    · rw [h] at hm
      exact absurd hm (by simp)
    · rw [h] at hm
      have ht := Option.some.inj hm
      exact ht.symm
  · intro d orders depots h0 _ hdata
    have hcap : hasCapacityFlag [d] orders {} = false := by
      unfold hasCapacityFlag
      simp only [Bool.or_eq_false_iff, List.any_eq_false]
      refine ⟨?_, ?_⟩
      · intro x hx
        have hx2 := List.mem_singleton.mp hx
        subst hx2
        simp [h0]
      · intro o ho
        obtain ⟨hw, hv, _, _⟩ := hdata o ho
        simp [jsNumPos, hw, hv]
    have htw : hasTimeWindowsFlag orders {} = false := by
      unfold hasTimeWindowsFlag
      simp only [Bool.or_eq_false_iff, List.any_eq_false]
      refine ⟨by decide, ?_⟩
      intro o ho
      obtain ⟨_, _, hs, he⟩ := hdata o ho
      simp [jsTruthyStr, hs, he]
    have htype : (analyzeProblemType [d] orders depots {}).type = VariantTag.TSP := by
      unfold analyzeProblemType
      simp only [hcap, htw]
      rfl
    have hcap2 : (analyzeProblemType [d] orders depots {}).hasCapacity = false := hcap
    have htw2 : (analyzeProblemType [d] orders depots {}).hasTimeWindows = false := htw
    exact ⟨htype, hcap2, htw2⟩

theorem C1_classifier_priority_witness :
    (analyzeProblemType [plainDriver] plainOrders5 [] {}).type = VariantTag.TSP ∧
      (analyzeProblemType [plainDriver] plainOrders5 [] {}).hasCapacity = false ∧
      (analyzeProblemType [plainDriver] plainOrders5 [] {}).hasTimeWindows = false :=
  C1_classifier_priority.2 plainDriver plainOrders5 [] (by decide) (by decide) (by decide)

/-- C2: with no explicit capacity override, the classifier's `hasCapacity`
is false whenever every order weight/volume is 0 (or absent) and every
driver capacity is 0; making any single one of those values positive makes
it true; and an explicit override forces `hasCapacity` to the override's
value regardless of the data. -/
theorem C2_hasCapacity_detection :
    (∀ (drivers : List Driver) (orders : List Order) (depots : List Depot)
        (opts : RequestOptions),
      opts.enableCapacityConstraint = none →
      (∀ d ∈ drivers, d.capacity = 0) →
      (∀ o ∈ orders, (o.weight = none ∨ o.weight = some 0) ∧
        (o.volume = none ∨ o.volume = some 0)) →
      (analyzeProblemType drivers orders depots opts).hasCapacity = false) ∧
    (∀ (drivers : List Driver) (orders : List Order) (depots : List Depot)
        (opts : RequestOptions),
      opts.enableCapacityConstraint = none →
      ((∃ d ∈ drivers, 0 < d.capacity) ∨
       (∃ o ∈ orders, ∃ w, o.weight = some w ∧ 0 < w) ∨
       (∃ o ∈ orders, ∃ v, o.volume = some v ∧ 0 < v)) →
      (analyzeProblemType drivers orders depots opts).hasCapacity = true) ∧
    (∀ (drivers : List Driver) (orders : List Order) (depots : List Depot)
        (opts : RequestOptions) (b : Bool),
      opts.enableCapacityConstraint = some b →
      (analyzeProblemType drivers orders depots opts).hasCapacity = b) := by
  refine ⟨?_, ?_, ?_⟩
  · intro drivers orders depots opts hnone hd ho
    show hasCapacityFlag drivers orders opts = false
    unfold hasCapacityFlag
    rw [hnone]
    simp only [Bool.or_eq_false_iff, List.any_eq_false]
    refine ⟨?_, ?_⟩
    · intro d hdm
      simp [hd d hdm]
    · intro o hom
      obtain ⟨hw, hv⟩ := ho o hom
      rcases hw with hw | hw <;> rcases hv with hv | hv <;> simp [jsNumPos, hw, hv]
  · intro drivers orders depots opts hnone hpos
    show hasCapacityFlag drivers orders opts = true
    unfold hasCapacityFlag
    rw [hnone]
    simp only [Bool.or_eq_true, List.any_eq_true]
    rcases hpos with ⟨d, hdm, hdc⟩ | ⟨o, hom, w, hw, hwpos⟩ | ⟨o, hom, v, hv, hvpos⟩
    · exact Or.inl ⟨d, hdm, by simpa using hdc⟩
    · exact Or.inr ⟨o, hom, by simp [jsNumPos, hw, hwpos]⟩
    · exact Or.inr ⟨o, hom, by simp [jsNumPos, hv, hvpos]⟩
  · intro drivers orders depots opts b hover
    show hasCapacityFlag drivers orders opts = b
    unfold hasCapacityFlag
    rw [hover]

theorem C2_hasCapacity_detection_witness :
    (analyzeProblemType [plainDriver] plainOrders5 [] {}).hasCapacity = false ∧
      (analyzeProblemType [capDriver] plainOrders5 [] {}).hasCapacity = true ∧
      (analyzeProblemType [capDriver] plainOrders5 []
        { enableCapacityConstraint := some false }).hasCapacity = false :=
  ⟨C2_hasCapacity_detection.1 [plainDriver] plainOrders5 [] {} rfl (by decide) (by decide),
   C2_hasCapacity_detection.2.1 [capDriver] plainOrders5 [] {} rfl
     (Or.inl ⟨capDriver, by decide, by decide⟩),
   C2_hasCapacity_detection.2.2 [capDriver] plainOrders5 []
     { enableCapacityConstraint := some false } false rfl⟩

theorem buildVisit_ok (today : String) (analysis : ProblemAnalysis) (i : Nat)
    (o : Order) (h : orderCoordsOk o = true) :
    ∃ v, buildVisit today analysis i o = .ok v := by
  unfold buildVisit
  split
  · next hcond =>
    unfold orderCoordsOk at h
    rw [Bool.not_eq_true'] at h
    rw [h] at hcond
    exact absurd hcond (by simp)
  · exact ⟨_, rfl⟩

theorem buildVisit_penalty (today : String) (analysis : ProblemAnalysis)
    (i : Nat) (o : Order) (v : Visit)
    (h : buildVisit today analysis i o = .ok v) :
    v.unassigned_penalty = claimPenalty analysis o := by
  unfold buildVisit at h
  split at h
  · exact Except.noConfusion h
  · injection h with h
    subst h
    unfold claimPenalty
    cases hp : o.priority with
    | none => simp [jsTruthyNum, hp]
    | some p =>
      by_cases hz : p = 0
      · subst hz
        simp [jsTruthyNum, hp]
      · simp [jsTruthyNum, jsOrNum, hp, hz]

theorem buildVisitsGo_spec (today : String) (analysis : ProblemAnalysis) :
    ∀ (orders : List Order) (k : Nat) (visits : List Visit),
      buildVisitsGo today analysis k orders = .ok visits →
      visits.length = orders.length ∧
      ∀ (i : Nat) (h1 : i < orders.length) (h2 : i < visits.length),
        buildVisit today analysis (k + i) (orders.get ⟨i, h1⟩) =
          .ok (visits.get ⟨i, h2⟩) := by
  intro orders
  induction orders with
  | nil =>
    intro k visits h
    unfold buildVisitsGo at h
    injection h with h
    subst h
    exact ⟨rfl, by intro i h1 _; exact absurd h1 (by simp)⟩
  | cons o rest ih =>
    intro k visits h
    unfold buildVisitsGo at h
    cases hv : buildVisit today analysis k o with
    | error c =>
      rw [hv] at h
      simp only [Bind.bind, Except.bind] at h
      exact Except.noConfusion h
    | ok v =>
      rw [hv] at h
      cases hvs : buildVisitsGo today analysis (k + 1) rest with
      | error c =>
        rw [hvs] at h
        simp only [Bind.bind, Except.bind] at h
        exact Except.noConfusion h
      | ok vs =>
        rw [hvs] at h
        simp only [Bind.bind, Except.bind, pure, Except.pure] at h
        injection h with h
        subst h
        obtain ⟨hlen, hget⟩ := ih (k + 1) vs hvs
        refine ⟨by simp [hlen], ?_⟩
        intro i h1 h2
        cases i with
        | zero => simpa using hv
        | succ j =>
          have hj1 : j < rest.length := by simpa using h1
          have hj2 : j < vs.length := by simpa using h2
          have hx := hget j hj1 hj2
          have he : k + (j + 1) = (k + 1) + j := by omega
          rw [he]
          simpa using hx

theorem buildVisitsGo_ok (today : String) (analysis : ProblemAnalysis) :
    ∀ (orders : List Order) (k : Nat),
      (∀ o ∈ orders, orderCoordsOk o = true) →
      ∃ visits, buildVisitsGo today analysis k orders = .ok visits := by
  intro orders
  induction orders with
  | nil => intro k _; exact ⟨[], rfl⟩
  | cons o rest ih =>
    intro k hall
    obtain ⟨v, hv⟩ := buildVisit_ok today analysis k o (hall o (by simp))
    obtain ⟨vs, hvs⟩ := ih (k + 1) (fun x hx => hall x (by simp [hx]))
    refine ⟨v :: vs, ?_⟩
    unfold buildVisitsGo
    rw [hv, hvs]
    rfl

/-- C3: in the built visit list, an order gets `unassigned_penalty =
round(1000/priority)` when the classification has preferences and the order
carries an explicit (truthy) priority; otherwise 100 for any non-TSP
variant; and no penalty at all in the remaining TSP case. -/
theorem C3_unassigned_penalty :
    ∀ (today : String) (orders : List Order) (analysis : ProblemAnalysis)
      (visits : List Visit),
      buildVisits today orders analysis = .ok visits →
      visits.length = orders.length ∧
      ∀ (i : Nat) (h1 : i < orders.length) (h2 : i < visits.length),
        (visits.get ⟨i, h2⟩).unassigned_penalty =
          claimPenalty analysis (orders.get ⟨i, h1⟩) := by
  intro today orders analysis visits h
  obtain ⟨hlen, hget⟩ := buildVisitsGo_spec today analysis orders 0 visits h
  refine ⟨hlen, ?_⟩
  intro i h1 h2
  exact buildVisit_penalty today analysis (0 + i) _ _ (hget i h1 h2)

theorem C3_unassigned_penalty_witness :
    (c3WitnessVisits.get ⟨0, by decide⟩).unassigned_penalty =
      claimPenalty (analyzeProblemType [capDriver] [heavyOrder 100 1] [] {})
        ([heavyOrder 100 1].get ⟨0, by decide⟩) :=
  (C3_unassigned_penalty "2026-10-12" [heavyOrder 100 1]
      (analyzeProblemType [capDriver] [heavyOrder 100 1] [] {}) c3WitnessVisits
      rfl).2 0 (by decide) (by decide)

theorem exceptBind_ok_inv {ε α β : Type} {x : Except ε α} {f : α → Except ε β}
    {b : β} (h : x >>= f = .ok b) : ∃ a, x = .ok a ∧ f a = .ok b := by
  cases x with
  | error e =>
    simp only [Bind.bind, Except.bind] at h
    exact Except.noConfusion h
  | ok a =>
    refine ⟨a, rfl, ?_⟩
    simpa only [Bind.bind, Except.bind] using h

theorem transform_ok_inv (today : String) (drivers : List Driver)
    (orders : List Order) (depots : List Depot) (opts : RequestOptions)
    (request : BuiltRequest) (warnings : List Warning)
    (h : transformToOmeletRequest today drivers orders depots opts =
      .ok (request, warnings)) :
    ∃ visits, buildVisits today orders
        (pipelineAnalysis drivers orders depots opts) = .ok visits ∧
      request.visits = visits := by
  simp only [transformToOmeletRequest] at h
  obtain ⟨dep, hdep, h⟩ := exceptBind_ok_inv h
  obtain ⟨visits, hvis, h⟩ := exceptBind_ok_inv h
  obtain ⟨ws, hws, h⟩ := exceptBind_ok_inv h
  simp only [pure, Except.pure] at h
  injection h with h
  refine ⟨visits, hvis, ?_⟩
  have h1 := congrArg Prod.fst h
  simp at h1
  rw [← h1]
  rfl

theorem buildVisit_time_window_none (today : String) (analysis : ProblemAnalysis)
    (i : Nat) (o : Order) (v : Visit) (hTW : analysis.hasTimeWindows = false)
    (h : buildVisit today analysis i o = .ok v) :
    v.time_window = none ∧ v.service_time = none := by
  unfold buildVisit at h
  split at h
  · exact Except.noConfusion h
  · injection h with h
    subst h
    simp [hTW]

/-- C10: when some driver has a working-hours bound, no order carries both
time-window bounds and no time-window override is given, the analysis used
to build the visit list has `hasTimeWindows = false`, so the built visits
carry no `time_window` and no `service_time`; building the vehicle list
afterwards flips the shared analysis's `hasTimeWindows` to true, but since
the visit list is built before the vehicle list this cannot add time-window
data to the visits of the final request. -/
theorem C10_visits_before_vehicle_mutation :
    ∀ (today : String) (drivers : List Driver) (orders : List Order)
      (depots : List Depot) (opts : RequestOptions),
      opts.enableTimeWindowConstraint = none →
      (∃ d ∈ drivers, jsTruthyStr d.working_hours_start = true ∨
        jsTruthyStr d.working_hours_end = true) →
      (∀ o ∈ orders, jsTruthyStr o.time_window_start = false ∨
        jsTruthyStr o.time_window_end = false) →
      (pipelineAnalysis drivers orders depots opts).hasTimeWindows = false ∧
      (buildVehicles today drivers
        (pipelineAnalysis drivers orders depots opts)).2.hasTimeWindows = true ∧
      (∀ request warnings,
        transformToOmeletRequest today drivers orders depots opts =
          .ok (request, warnings) →
        ∀ v ∈ request.visits, v.time_window = none ∧ v.service_time = none) := by
  intro today drivers orders depots opts hnone hwh horders
  have hflag : (pipelineAnalysis drivers orders depots opts).hasTimeWindows = false := by
    show hasTimeWindowsFlag orders (resolvedOptions drivers orders opts) = false
    unfold hasTimeWindowsFlag
    have he : (resolvedOptions drivers orders opts).enableTimeWindowConstraint = none := hnone
    rw [he]
    simp only [Bool.or_eq_false_iff, List.any_eq_false]
    refine ⟨by decide, ?_⟩
    intro o ho
    rcases horders o ho with h | h <;> simp [h]
  have hwork : (pipelineAnalysis drivers orders depots opts).hasWorkingHours = true := by
    show hasWorkingHoursFlag drivers = true
    unfold hasWorkingHoursFlag
    rw [List.any_eq_true]
    obtain ⟨d, hd, hdw⟩ := hwh
    exact ⟨d, hd, by rcases hdw with h | h <;> simp [h]⟩
  have hne : drivers.isEmpty = false := by
    obtain ⟨d, hd, _⟩ := hwh
    cases drivers with
    | nil => exact absurd hd (by simp)
    | cons a l => rfl
  refine ⟨hflag, ?_, ?_⟩
  · unfold buildVehicles
    rw [hwork, hne]
    rfl
  · intro request warnings h v hv
    obtain ⟨visits, hvis, hreq⟩ :=
      transform_ok_inv today drivers orders depots opts request warnings h
    rw [hreq] at hv
    obtain ⟨⟨i, hi⟩, hg⟩ := List.mem_iff_get.mp hv
    obtain ⟨hlen, hget⟩ := buildVisitsGo_spec today
      (pipelineAnalysis drivers orders depots opts) orders 0 visits hvis
    have hi2 : i < orders.length := by omega
    have hbv := hget i hi2 hi
    rw [hg] at hbv
    exact buildVisit_time_window_none today _ (0 + i) _ v hflag hbv

theorem C10_visits_before_vehicle_mutation_witness :
    (pipelineAnalysis [whDriver] [plainOrder 1] [] {}).hasTimeWindows = false ∧
      (buildVehicles "2026-10-12" [whDriver]
        (pipelineAnalysis [whDriver] [plainOrder 1] [] {})).2.hasTimeWindows = true :=
  ⟨(C10_visits_before_vehicle_mutation "2026-10-12" [whDriver] [plainOrder 1] [] {}
      rfl ⟨whDriver, by decide, Or.inl (by decide)⟩ (by decide)).1,
   (C10_visits_before_vehicle_mutation "2026-10-12" [whDriver] [plainOrder 1] [] {}
      rfl ⟨whDriver, by decide, Or.inl (by decide)⟩ (by decide)).2.1⟩

/-- C6: with the capacity constraint active, the final validation treats the
demand/capacity comparison as a soft check: when total demand exceeds total
capacity it returns successfully with an over-capacity warning, and when
demand is at most capacity it returns successfully with no warning — never
an error.  Concretely, 3 drivers of capacity 1000 with 20 orders of weight
100 (sum 2000 ≤ 3000) build with no warning, and with 20 orders of weight
200 (sum 4000 > 3000) build successfully with the over-capacity warning. -/
theorem C6_capacity_soft_check :
    (∀ (request : BuiltRequest) (analysis : ProblemAnalysis),
      analysis.hasCapacity = true →
      request.visits.length ≠ 0 → request.vehicles.length ≠ 0 →
      (∀ v ∈ request.visits, ∀ s e, v.time_window = some (s, e) →
        jsDateGE s e = false) →
      (totalDemand request.visits > totalCapacity request.vehicles →
        validateRequest request analysis =
          .ok [Warning.overCapacity (totalDemand request.visits)
            (totalCapacity request.vehicles)]) ∧
      (totalDemand request.visits ≤ totalCapacity request.vehicles →
        validateRequest request analysis = .ok [])) ∧
    resultWarnings (transformToOmeletRequest "2026-10-12"
      [capDriver, capDriver, capDriver] (orders20 100) [sampleDepot] {}) = some [] ∧
    resultWarnings (transformToOmeletRequest "2026-10-12"
      [capDriver, capDriver, capDriver] (orders20 200) [sampleDepot] {}) =
      some [Warning.overCapacity 4000 3000] := by
  refine ⟨?_, by decide, by decide⟩
  intro request analysis hcap hv hveh htw
  have h1 : (request.visits.length == 0) = false := by simpa using hv
  have h2 : (request.vehicles.length == 0) = false := by simpa using hveh
  have hbad : (request.visits.any fun v =>
      match v.time_window with
      | some (s, e) => jsDateGE s e
      | none => false) = false := by
    simp only [List.any_eq_false]
    intro v hvm
    cases hw : v.time_window with
    | none => simp
    | some pr =>
      cases pr with
      | mk s e => simpa using htw v hvm s e hw
  constructor <;> intro hd
  · unfold validateRequest
    simp only [h1, h2, hcap, hbad, Bool.false_eq_true, if_false, if_true]
    rw [if_pos hd]
    cases hTW : analysis.hasTimeWindows <;> simp [hbad]
  · unfold validateRequest
    simp only [h1, h2, hcap, hbad, Bool.false_eq_true, if_false, if_true]
    have hnd : ¬ (totalDemand request.visits > totalCapacity request.vehicles) := by
      omega
    rw [if_neg hnd]
    cases hTW : analysis.hasTimeWindows <;> simp [hbad]

theorem C6_capacity_soft_check_witness :
    validateRequest c6Request c6Analysis = .ok [Warning.overCapacity 5 3] :=
  ((C6_capacity_soft_check.1 c6Request c6Analysis rfl (by decide) (by decide)
    (by
      intro v hv s e hse
      have hveq : v = { name := "V", lng := 0, lat := 0, weight := some 5 } := by
        simpa [c6Request] using hv
      rw [hveq] at hse
      exact Option.noConfusion hse)).1) (by decide)

theorem string_data_append (a b : String) : (a ++ b).data = a.data ++ b.data := rfl

theorem parseHHMM_inv (l : List Char) (m : Nat) (h : parseHHMM l = some m) :
    ∃ a1 a2 b1 b2, l = [a1, a2, ':', b1, b2] ∧ a1.isDigit = true ∧
      a2.isDigit = true ∧ b1.isDigit = true ∧ b2.isDigit = true ∧
      m = (charVal a1 * 10 + charVal a2) * 60 + (charVal b1 * 10 + charVal b2) := by
  unfold parseHHMM at h
  split at h
  · next a1 a2 cc b1 b2 =>
    split at h
    · next hcond =>
      injection h with h
      rcases hcond' : hcond with hc
      simp only [Bool.and_eq_true, beq_iff_eq] at hc
      obtain ⟨⟨⟨⟨hcc, hd1⟩, hd2⟩, hd3⟩, hd4⟩ := hc
      subst hcc
      exact ⟨a1, a2, b1, b2, rfl, hd1, hd2, hd3, hd4, h.symm⟩
    · exact Option.noConfusion h
  · exact Option.noConfusion h

theorem parseDate10_inv (l : List Char) (dk : Nat) (h : parseDate10 l = some dk) :
    ∃ y1 y2 y3 y4 mo1 mo2 da1 da2,
      l = [y1, y2, y3, y4, '-', mo1, mo2, '-', da1, da2] ∧
      y1.isDigit = true ∧ y2.isDigit = true ∧ y3.isDigit = true ∧
      y4.isDigit = true ∧ mo1.isDigit = true ∧ mo2.isDigit = true ∧
      da1.isDigit = true ∧ da2.isDigit = true ∧
      dk = ((((charVal y1 * 10 + charVal y2) * 10 + charVal y3) * 10 + charVal y4) * 13
        + (charVal mo1 * 10 + charVal mo2)) * 32 + (charVal da1 * 10 + charVal da2) := by
  unfold parseDate10 at h
  split at h
  · next y1 y2 y3 y4 a mo1 mo2 b da1 da2 =>
    split at h
    · next hcond =>
      injection h with h
      simp only [Bool.and_eq_true, beq_iff_eq] at hcond
      obtain ⟨⟨⟨⟨⟨⟨⟨⟨⟨ha, hb⟩, h1⟩, h2⟩, h3⟩, h4⟩, h5⟩, h6⟩, h7⟩, h8⟩ := hcond
      subst ha
      subst hb
      exact ⟨y1, y2, y3, y4, mo1, mo2, da1, da2, rfl, h1, h2, h3, h4, h5, h6, h7, h8, h.symm⟩
    · exact Option.noConfusion h
  · exact Option.noConfusion h

theorem jsDateVal_combine (today s : String) (dk m : Nat)
    (h1 : dateVal10 today = some dk) (h2 : hhmmVal s = some m) :
    jsDateVal (today ++ "T" ++ s ++ ":00Z") = some (dk * 86400 + m * 60) := by
  obtain ⟨y1, y2, y3, y4, mo1, mo2, da1, da2, hteq, hdy1, hdy2, hdy3, hdy4,
    hdm1, hdm2, hdd1, hdd2, hdk⟩ := parseDate10_inv today.data dk h1
  obtain ⟨a1, a2, b1, b2, hseq, hda1, hda2, hdb1, hdb2, hm⟩ :=
    parseHHMM_inv s.data m h2
  unfold jsDateVal
  have hdata : (today ++ "T" ++ s ++ ":00Z").data =
      [y1, y2, y3, y4, '-', mo1, mo2, '-', da1, da2, 'T',
       a1, a2, ':', b1, b2, ':', '0', '0', 'Z'] := by
    rw [string_data_append, string_data_append, string_data_append, hteq, hseq]
    rfl
  rw [hdata]
  simp only [parseISOZ]
  rw [if_pos (by simp [hdy1, hdy2, hdy3, hdy4, hdm1, hdm2, hdd1, hdd2,
    hda1, hda2, hdb1, hdb2])]
  rw [Option.some_inj]
  have h0 : charVal '0' = 0 := rfl
  subst hdk
  subst hm
  omega

theorem digit_beq_false (c d : Char) (hc : c.isDigit = true)
    (hd : d.isDigit = false) : (c == d) = false := by
  cases h : c == d
  · rfl
  · have he := beq_iff_eq.mp h
    subst he
    rw [hc] at hd
    exact Bool.noConfusion hd

theorem hhmm_no_T (s : String) (m : Nat) (h : hhmmVal s = some m) :
    jsIncludesChar s 'T' = false := by
  obtain ⟨a1, a2, b1, b2, hseq, hda1, hda2, hdb1, hdb2, _⟩ :=
    parseHHMM_inv s.data m h
  unfold jsIncludesChar
  rw [hseq]
  simp only [List.any_cons, List.any_nil, Bool.or_false]
  rw [digit_beq_false a1 'T' hda1 (by decide), digit_beq_false a2 'T' hda2 (by decide),
      digit_beq_false b1 'T' hdb1 (by decide), digit_beq_false b2 'T' hdb2 (by decide)]
  simp

theorem hhmm_ne_empty (s : String) (m : Nat) (h : hhmmVal s = some m) :
    (s == "") = false := by
  obtain ⟨a1, a2, b1, b2, hseq, _⟩ := parseHHMM_inv s.data m h
  cases hbe : s == ""
  · rfl
  · exfalso
    have he := beq_iff_eq.mp hbe
    rw [he] at hseq
    simp at hseq

theorem isoz_ne_empty (s : String) (x : Nat) (h : jsDateVal s = some x) :
    (s == "") = false := by
  cases hbe : s == ""
  · rfl
  · exfalso
    have he := beq_iff_eq.mp hbe
    rw [he] at h
    exact Option.noConfusion h

theorem exceptBind_ok {ε α β : Type} {x : Except ε α} {a : α}
    (f : α → Except ε β) (h : x = .ok a) : x >>= f = f a := by
  rw [h]
  rfl

theorem buildVisit_window_norm (today : String) (analysis : ProblemAnalysis)
    (i : Nat) (o : Order) (v : Visit) (s e : String) (dk m1 m2 : Nat)
    (hTW : analysis.hasTimeWindows = true)
    (hs : o.time_window_start = some s) (he : o.time_window_end = some e)
    (hdk : dateVal10 today = some dk)
    (hm1 : hhmmVal s = some m1) (hm2 : hhmmVal e = some m2) (hlt : m1 < m2)
    (h : buildVisit today analysis i o = .ok v) :
    ∃ a b x y, v.time_window = some (a, b) ∧ jsDateVal a = some x ∧
      jsDateVal b = some y ∧ x < y := by
  have hsne := hhmm_ne_empty s m1 hm1
  have hene := hhmm_ne_empty e m2 hm2
  have hts : jsTruthyStr o.time_window_start = true := by
    simp [jsTruthyStr, hs, hsne]
  have hte : jsTruthyStr o.time_window_end = true := by
    simp [jsTruthyStr, he, hene]
  have hots : jsOrStr o.time_window_start "" = s := by
    simp [jsOrStr, hs, hsne]
  have hote : jsOrStr o.time_window_end "" = e := by
    simp [jsOrStr, he, hene]
  have hnoT : jsIncludesChar s 'T' = false := hhmm_no_T s m1 hm1
  unfold buildVisit at h
  split at h
  · exact Except.noConfusion h
  · injection h with h
    subst h
    refine ⟨today ++ "T" ++ s ++ ":00Z", today ++ "T" ++ e ++ ":00Z",
      dk * 86400 + m1 * 60, dk * 86400 + m2 * 60, ?_,
      jsDateVal_combine today s dk m1 hdk hm1,
      jsDateVal_combine today e dk m2 hdk hm2, by omega⟩
    simp [hTW, hts, hte, hots, hote, hnoT]

theorem buildVisit_window_passthrough (today : String) (analysis : ProblemAnalysis)
    (i : Nat) (o : Order) (v : Visit) (s e : String) (x y : Nat)
    (hTW : analysis.hasTimeWindows = true)
    (hs : o.time_window_start = some s) (he : o.time_window_end = some e)
    (hT : jsIncludesChar s 'T' = true)
    (hx : jsDateVal s = some x) (hy : jsDateVal e = some y) (hxy : x < y)
    (h : buildVisit today analysis i o = .ok v) :
    v.time_window = some (s, e) ∧ jsDateGE s e = false := by
  have hsne := isoz_ne_empty s x hx
  have hene := isoz_ne_empty e y hy
  have hts : jsTruthyStr o.time_window_start = true := by
    simp [jsTruthyStr, hs, hsne]
  have hte : jsTruthyStr o.time_window_end = true := by
    simp [jsTruthyStr, he, hene]
  have hots : jsOrStr o.time_window_start "" = s := by
    simp [jsOrStr, hs, hsne]
  have hote : jsOrStr o.time_window_end "" = e := by
    simp [jsOrStr, he, hene]
  constructor
  · unfold buildVisit at h
    split at h
    · exact Except.noConfusion h
    · injection h with h
      subst h
      simp [hTW, hts, hte, hots, hote, hT]
  · unfold jsDateGE
    rw [hx, hy]
    simp
    omega

theorem buildVisit_window_valid (today : String) (analysis : ProblemAnalysis)
    (i : Nat) (o : Order) (v : Visit) (dk : Nat)
    (hdk : dateVal10 today = some dk)
    (hwin : timeWindowOkHHMM o = true)
    (h : buildVisit today analysis i o = .ok v) :
    ∀ s e, v.time_window = some (s, e) → jsDateGE s e = false := by
  intro s e hse
  by_cases hc : (analysis.hasTimeWindows && jsTruthyStr o.time_window_start &&
      jsTruthyStr o.time_window_end) = true
  · rw [Bool.and_eq_true, Bool.and_eq_true] at hc
    obtain ⟨⟨hTW, hts⟩, hte⟩ := hc
    cases hs0 : o.time_window_start with
    | none =>
      rw [hs0] at hts
      exact absurd hts (by simp [jsTruthyStr])
    | some s0 =>
      cases he0 : o.time_window_end with
      | none =>
        rw [he0] at hte
        exact absurd hte (by simp [jsTruthyStr])
      | some e0 =>
        have hs0ne : (s0 == "") = false := by
          rw [hs0] at hts
          simpa [jsTruthyStr] using hts
        have he0ne : (e0 == "") = false := by
          rw [he0] at hte
          simpa [jsTruthyStr] using hte
        unfold timeWindowOkHHMM at hwin
        rw [hs0, he0] at hwin
        simp only [hs0ne, he0ne, Bool.or_self, Bool.false_eq_true, if_false] at hwin
        cases hm1 : hhmmVal s0 with
        | none =>
          rw [hm1] at hwin
          simp at hwin
        | some m1 =>
          cases hm2 : hhmmVal e0 with
          | none =>
            rw [hm1, hm2] at hwin
            simp at hwin
          | some m2 =>
            rw [hm1, hm2] at hwin
            have hlt : m1 < m2 := by simpa using hwin
            obtain ⟨a, b, x, y, hab, hxa, hyb, hxy⟩ :=
              buildVisit_window_norm today analysis i o v s0 e0 dk m1 m2
                hTW hs0 he0 hdk hm1 hm2 hlt h
            rw [hab] at hse
            injection hse with hse
            cases hse
            unfold jsDateGE
            rw [hxa, hyb]
            simp
            omega
  · have hcf : (analysis.hasTimeWindows && jsTruthyStr o.time_window_start &&
        jsTruthyStr o.time_window_end) = false := by simpa using hc
    unfold buildVisit at h
    split at h
    · exact Except.noConfusion h
    · injection h with h
      subst h
      simp [hcf] at hse

theorem buildDepot_ok (depots : List Depot) (drivers : List Driver)
    (d0 : Depot) (rest : List Depot) (hdep : depots = d0 :: rest)
    (hok : depotCoordsOk d0 = true) :
    ∃ dep, buildDepot depots drivers = .ok dep := by
  subst hdep
  have hcf : (decide (d0.lng < -180) || decide (d0.lng > 180) ||
      decide (d0.lat < -90) || decide (d0.lat > 90)) = false := by
    unfold depotCoordsOk at hok
    rw [Bool.not_eq_true'] at hok
    exact hok
  have hstep : buildDepot (d0 :: rest) drivers =
      (if d0.lng < -180 || d0.lng > 180 || d0.lat < -90 || d0.lat > 90 then
        Except.error TMSCode.INVALID_DEPOT_COORDINATES
      else Except.ok ({ name := jsOrStr d0.name "Main Depot", lng := d0.lng, lat := d0.lat } : DepotOut)) := rfl
  refine ⟨{ name := jsOrStr d0.name "Main Depot", lng := d0.lng, lat := d0.lat }, ?_⟩
  rw [hstep, hcf]
  rw [if_neg (by simp)]

theorem buildVehicles_length (today : String) (drivers : List Driver)
    (analysis : ProblemAnalysis) :
    (buildVehicles today drivers analysis).1.length = drivers.length := by
  unfold buildVehicles
  simp

theorem validateRequest_ok (request : BuiltRequest) (analysis : ProblemAnalysis)
    (hv : request.visits.length ≠ 0) (hveh : request.vehicles.length ≠ 0)
    (htw : ∀ v ∈ request.visits, ∀ s e, v.time_window = some (s, e) →
      jsDateGE s e = false) :
    exceptIsOkW (validateRequest request analysis) = true := by
  have h1 : (request.visits.length == 0) = false := by simpa using hv
  have h2 : (request.vehicles.length == 0) = false := by simpa using hveh
  have hbad : (request.visits.any fun v =>
      match v.time_window with
      | some (s, e) => jsDateGE s e
      | none => false) = false := by
    simp only [List.any_eq_false]
    intro v hvm
    cases hw : v.time_window with
    | none => simp
    | some pr =>
      cases pr with
      | mk s e => simpa using htw v hvm s e hw
  unfold validateRequest
  simp only [h1, h2, Bool.false_eq_true, if_false]
  cases hTW : analysis.hasTimeWindows
  · rw [if_neg (by simp)]
    rfl
  · rw [if_pos rfl, hbad, if_neg (by simp)]
    rfl

theorem exceptIsOk_bind_pure (x : Except TMSCode (List Warning))
    (r : BuiltRequest) (h : exceptIsOkW x = true) :
    exceptIsOk (x >>= fun w => pure (r, w)) = true := by
  cases x with
  | error c => exact Bool.noConfusion h
  | ok ws => rfl

theorem transform_ok_of (today : String) (drivers : List Driver)
    (orders : List Order) (depots : List Depot) (opts : RequestOptions)
    (dep : DepotOut) (visits : List Visit)
    (hdep : buildDepot depots drivers = .ok dep)
    (hvis : buildVisits today orders
      (pipelineAnalysis drivers orders depots opts) = .ok visits)
    (hvlen : visits.length ≠ 0) (hdlen : drivers.length ≠ 0)
    (hwin : ∀ v ∈ visits, ∀ s e, v.time_window = some (s, e) →
      jsDateGE s e = false) :
    exceptIsOk (transformToOmeletRequest today drivers orders depots opts) = true := by
  simp only [transformToOmeletRequest]
  rw [exceptBind_ok _ hdep]
  rw [exceptBind_ok _ hvis]
  refine exceptIsOk_bind_pure _ _ (validateRequest_ok _ _ hvlen ?_ hwin)
  show (buildVehicles today drivers
    (pipelineAnalysis drivers orders depots opts)).1.length ≠ 0
  rw [buildVehicles_length]
  exact hdlen

/-- C5: with the time constraint active, validation fails with the
invalid-time-window error whenever some built visit's window has
start ≥ end; normalization of an order whose `HH:MM` bounds are strictly
increasing (combining them with the current date and a UTC designator), and
pass-through of date-qualified bounds, both produce a window whose first
timestamp strictly precedes the second; and a build over orders whose
windows are well-ordered `HH:MM` bounds succeeds. -/
theorem C5_time_window_validation :
    (∀ (request : BuiltRequest) (analysis : ProblemAnalysis),
      analysis.hasTimeWindows = true →
      request.visits.length ≠ 0 → request.vehicles.length ≠ 0 →
      (∃ v ∈ request.visits, ∃ s e, v.time_window = some (s, e) ∧
        jsDateGE s e = true) →
      validateRequest request analysis = .error .INVALID_TIME_WINDOWS) ∧
    (∀ (today : String) (analysis : ProblemAnalysis) (i : Nat) (o : Order)
        (v : Visit) (s e : String) (dk m1 m2 : Nat),
      analysis.hasTimeWindows = true →
      o.time_window_start = some s → o.time_window_end = some e →
      dateVal10 today = some dk →
      hhmmVal s = some m1 → hhmmVal e = some m2 → m1 < m2 →
      buildVisit today analysis i o = .ok v →
      ∃ a b x y, v.time_window = some (a, b) ∧ jsDateVal a = some x ∧
        jsDateVal b = some y ∧ x < y) ∧
    (∀ (today : String) (analysis : ProblemAnalysis) (i : Nat) (o : Order)
        (v : Visit) (s e : String) (x y : Nat),
      analysis.hasTimeWindows = true →
      o.time_window_start = some s → o.time_window_end = some e →
      jsIncludesChar s 'T' = true →
      jsDateVal s = some x → jsDateVal e = some y → x < y →
      buildVisit today analysis i o = .ok v →
      v.time_window = some (s, e) ∧ jsDateGE s e = false) ∧
    (∀ (today : String) (drivers : List Driver) (orders : List Order)
        (d0 : Depot) (drest : List Depot) (opts : RequestOptions) (dk : Nat),
      dateVal10 today = some dk →
      drivers ≠ [] → orders ≠ [] →
      depotCoordsOk d0 = true →
      (∀ o ∈ orders, orderCoordsOk o = true) →
      (∀ o ∈ orders, timeWindowOkHHMM o = true) →
      exceptIsOk (transformToOmeletRequest today drivers orders
        (d0 :: drest) opts) = true) := by
  refine ⟨?_, ?_, ?_, ?_⟩
  · intro request analysis hTW hv hveh hex
    obtain ⟨v, hvm, s, e, hse, hge⟩ := hex
    have h1 : (request.visits.length == 0) = false := by simpa using hv
    have h2 : (request.vehicles.length == 0) = false := by simpa using hveh
    have hbad : (request.visits.any fun v =>
        match v.time_window with
        | some (s, e) => jsDateGE s e
        | none => false) = true := by
      rw [List.any_eq_true]
      refine ⟨v, hvm, ?_⟩
      rw [hse]
      exact hge
    unfold validateRequest
    simp only [h1, h2, Bool.false_eq_true, if_false]
    rw [hTW, if_pos rfl, hbad, if_pos rfl]
  · intro today analysis i o v s e dk m1 m2 hTW hs he hdk hm1 hm2 hlt h
    exact buildVisit_window_norm today analysis i o v s e dk m1 m2
      hTW hs he hdk hm1 hm2 hlt h
  · intro today analysis i o v s e x y hTW hs he hT hx hy hxy h
    exact buildVisit_window_passthrough today analysis i o v s e x y
      hTW hs he hT hx hy hxy h
  · intro today drivers orders d0 drest opts dk hdk hdrv hord hdok hcoords hwins
    obtain ⟨dep, hdep⟩ := buildDepot_ok (d0 :: drest) drivers d0 drest rfl hdok
    obtain ⟨visits, hvis⟩ := buildVisitsGo_ok today
      (pipelineAnalysis drivers orders (d0 :: drest) opts) orders 0 hcoords
    obtain ⟨hlen, hget⟩ := buildVisitsGo_spec today
      (pipelineAnalysis drivers orders (d0 :: drest) opts) orders 0 visits hvis
    have hvlen : visits.length ≠ 0 := by
      rw [hlen]
      cases orders with
      | nil => exact absurd rfl hord
      | cons a l => simp
    have hdlen : drivers.length ≠ 0 := by
      cases drivers with
      | nil => exact absurd rfl hdrv
      | cons a l => simp
    have hwin : ∀ v ∈ visits, ∀ s e, v.time_window = some (s, e) →
        jsDateGE s e = false := by
      intro v hvm s e hse
      obtain ⟨⟨i, hi⟩, hg⟩ := List.mem_iff_get.mp hvm
      have hi2 : i < orders.length := by omega
      have hbv := hget i hi2 hi
      rw [hg] at hbv
      exact buildVisit_window_valid today _ (0 + i) _ v dk hdk
        (hwins _ (List.get_mem orders i hi2)) hbv s e hse
    exact transform_ok_of today drivers orders (d0 :: drest) opts dep visits
      hdep hvis hvlen hdlen hwin

theorem C5_time_window_validation_witness :
    exceptIsOk (transformToOmeletRequest "2026-10-12" [plainDriver] [twOrder]
      (sampleDepot :: []) {}) = true :=
  C5_time_window_validation.2.2.2 "2026-10-12" [plainDriver] [twOrder]
    sampleDepot [] {} 843148 (by decide) (by decide) (by decide) (by decide)
    (by decide) (by decide)
